import Mathlib

/-!
Verification of the cache-aside orchestration layer of the `lust` image server.

The handlers in `src/routes.rs` (`get_file`, `add_file`, `remove_file`) are
embedded as pure Lean functions.  External collaborators that live outside the
repository core (the base64 codec, the JSON deserializer, the origin gateway
functions `get_image` / `process_new_image` / `delete_image`, and the HTTP body
reader) are passed in as explicit function arguments, typed exactly as the call
sites in `routes.rs` type them.  The in-process cache is modelled as an
association list with `get` / `set` / `invalidate` operations.
-/

namespace Lust

/-- The enumeration of supported image formats (`ImageFormat` in the source);
only equality of formats matters to the orchestration layer. -/
inductive ImageFormat where
  | png
  | jpeg
  | gif
  | webp
deriving DecidableEq, Repr

/-- A binary payload, as a list of bytes. -/
abbrev Bytes := List Nat

/-- The key of a cached rendition: `(file_id, preset, format)`, matching the
argument triple of `cache.get` / `cache.set` in `get_file`. -/
structure CacheKey where
  file_id : Nat
  preset : String
  format : ImageFormat
deriving DecidableEq, Repr

/-- Modelled from the spec: the CacheStore (`src/cache.rs` is not under
`src/`).  Per the spec it is a keyed store mapping CacheKey to an immutable
byte payload, with `get`, `set` (insert or replace) and
`invalidate(resource_id)` (remove every entry of that resource).  Eviction is
irrelevant to the claims and omitted; an association list holding at most one
entry per key realises the contract. -/
abbrev Cache := List (CacheKey × Bytes)

/-- `CacheStore.get`: the payload stored under `k`, if any. -/
def cacheGet : Cache → CacheKey → Option Bytes
  | [], _ => none
  | (k', b) :: rest, k => if k' = k then some b else cacheGet rest k

/-- `CacheStore.set`: insert or replace the entry under `k`. -/
def cacheSet (c : Cache) (k : CacheKey) (b : Bytes) : Cache :=
  (k, b) :: c.filter (fun e => decide (e.1 ≠ k))

/-- `CacheStore.invalidate`: remove every entry whose key names `id`,
across all preset/format combinations. -/
def cacheInvalidate (c : Cache) (id : Nat) : Cache :=
  c.filter (fun e => decide (e.1.file_id ≠ id))

/-- The query parameters of a fetch request (`ImageGet` in the source):
optional format, optional preset, optional transport-encoding flag. -/
structure ImageGet where
  format : Option ImageFormat
  preset : Option String
  encode : Option Bool

/-- The configuration fields `get_file` reads (`StateConfig` in the source):
default serving format, default serving preset, and the preset table, of which
only key membership matters (`size_presets.contains_key`). -/
structure Config where
  default_serving_format : ImageFormat
  default_serving_preset : String
  size_presets : List String

/-- Preset resolution, lines 28–39 of `routes.rs`: take the requested preset
or the configured default, and if the result is not `"original"` and not a key
of the preset table, replace it by `"original"`. -/
def resolvePreset (requested : Option String) (config : Config) : String :=
  let preset := requested.getD config.default_serving_preset
  if preset ≠ "original" then
    if preset ∈ config.size_presets then preset else "original"
  else
    preset

/-- The typed outcomes the three handlers can produce, one constructor per
distinct `(status, body shape)` pair in `routes.rs`. -/
inductive Response where
  | notFound
  | okImage (format : ImageFormat) (data : Bytes)
  | okJsonImage (encoded : String)
  | okUploaded (file_id : Nat) (formats : List ImageFormat)
  | okDeleted (file_id : Nat)
  | errBodyRead
  | errDeserialize
  | errBase64
  | errProcess
  | errDelete
deriving DecidableEq, Repr

/-- The HTTP status code each outcome is rendered with in `routes.rs`. -/
def Response.status : Response → Nat
  | .notFound => 404
  | .okImage _ _ => 200
  | .okJsonImage _ => 200
  | .okUploaded _ _ => 200
  | .okDeleted _ => 200
  | .errBodyRead => 500
  | .errDeserialize => 422
  | .errBase64 => 422
  | .errProcess => 500
  | .errDelete => 500

/-- The `get_file` handler (lines 18–83 of `routes.rs`).

Arguments standing for external collaborators: `b64encode` is the base64
`encode` of the `base64` crate; `gw` is `get_image`, typed `Option Bytes`
exactly as its call site types it (`if let Some(data) = get_image(..)`).

Returns the response, the cache after the request, and whether `get_image`
was invoked. -/
def get_file (b64encode : Bytes → String)
    (gw : Nat → String → ImageFormat → Option Bytes)
    (cache : Cache) (file_id : Nat) (params : ImageGet) (config : Config) :
    Response × Cache × Bool :=
  let format := params.format.getD config.default_serving_format
  let preset := resolvePreset params.preset config
  let key : CacheKey := ⟨file_id, preset, format⟩
  let render : Bytes → Response := fun data =>
    if params.encode.getD false then
      .okJsonImage (b64encode data)
    else
      .okImage format data
  match cacheGet cache key with
  | some cached => (render cached, cache, false)
  | none =>
    match gw file_id preset format with
    | some data => (render data, cacheSet cache key data, true)
    | none => (.notFound, cache, true)

/-- The upload envelope (`ImageUpload` in the source): a declared format and
a base64-encoded data string. -/
structure ImageUpload where
  format : ImageFormat
  data : String

/-- The externally observable steps of the ingest flow, in the order
`add_file` performs them. -/
inductive Step where
  | readBody
  | deserialize
  | decode
  | gateway
deriving DecidableEq, Repr

/-- The `add_file` handler (lines 85–159 of `routes.rs`).

External collaborators as arguments: `parseUpload` is
`serde_json::from_slice::<ImageUpload>`, `b64decode` is the base64 `decode`
of the `base64` crate, `process_new_image` is the origin-gateway ingest, and
`bodyResult` is the already-awaited result of `body::to_bytes`.

Returns the response, the cache after the request (`add_file` never touches
the cache in the source), and the trace of steps performed in order. -/
def add_file (parseUpload : Bytes → Except String ImageUpload)
    (b64decode : String → Option Bytes)
    (process_new_image : ImageFormat → Bytes → Except String (Nat × List ImageFormat))
    (bodyResult : Except String Bytes) (cache : Cache) :
    Response × Cache × List Step :=
  match bodyResult with
  | .error _ => (.errBodyRead, cache, [.readBody])
  | .ok bod =>
    match parseUpload bod with
    | .error _ => (.errDeserialize, cache, [.readBody, .deserialize])
    | .ok upload =>
      match b64decode upload.data with
      | none => (.errBase64, cache, [.readBody, .deserialize, .decode])
      | some data =>
        match process_new_image upload.format data with
        | .error _ => (.errProcess, cache, [.readBody, .deserialize, .decode, .gateway])
        | .ok (file_id, formats) =>
          (.okUploaded file_id formats, cache, [.readBody, .deserialize, .decode, .gateway])

/-- Modelled from the spec: `delete_image` (in `crate::image`, not under
`src/`).  Per the spec's delete flow it delegates to the origin gateway's
delete-resource operation and, on gateway success, purges every cached
rendition of the identifier; on gateway failure the cache is left untouched.
Returns the gateway result and the cache after the call. -/
def delete_image (gw_delete : Nat → Except String Unit)
    (cache : Cache) (file_id : Nat) : Except String Unit × Cache :=
  match gw_delete file_id with
  | .error e => (.error e, cache)
  | .ok _ => (.ok (), cacheInvalidate cache file_id)

/-- The `remove_file` handler (lines 161–191 of `routes.rs`): call
`delete_image`; on error answer 500, otherwise answer 200
("file deleted if exists"). -/
def remove_file (gw_delete : Nat → Except String Unit)
    (cache : Cache) (file_id : Nat) : Response × Cache :=
  match delete_image gw_delete cache file_id with
  | (.error _, c) => (.errDelete, c)
  | (.ok _, c) => (.okDeleted file_id, c)

/-- Modelled from the spec: the origin gateway's fetch-rendition operation
has three outcomes — bytes, absent, or an internal error (§6 of the spec).
`get_image` in the source is typed `Option`, so this is the interface the
spec describes, one level below the call site. -/
inductive GatewayOutcome where
  | bytes (b : Bytes)
  | absent
  | error
deriving DecidableEq, Repr

/-- The lowering forced by `get_image`'s `Option` return type as used at its
call site in `routes.rs`: an internal gateway error has no channel of its own
and can only surface as `none`, indistinguishable from absence. -/
def lowerOutcome : GatewayOutcome → Option Bytes
  | .bytes b => some b
  | .absent => none
  | .error => none

/-! ### Cache lemmas -/

theorem cacheGet_cacheSet_self (c : Cache) (k : CacheKey) (b : Bytes) :
    cacheGet (cacheSet c k b) k = some b := by
  simp [cacheGet, cacheSet]

theorem cacheGet_cacheSet_ne (c : Cache) (k k' : CacheKey) (b : Bytes)
    (h : k' ≠ k) : cacheGet (cacheSet c k b) k' = cacheGet c k' := by
  induction c with
  | nil => simp [cacheGet, cacheSet, Ne.symm h]
  | cons e rest ih =>
    obtain ⟨ke, be⟩ := e
    by_cases hk : ke = k
    · subst hk
      simpa [cacheGet, cacheSet, Ne.symm h] using ih
    · by_cases hk' : ke = k'
      · subst hk'
        simp [cacheGet, cacheSet, hk, Ne.symm h]
      · simpa [cacheGet, cacheSet, hk, hk', Ne.symm h] using ih

theorem cacheGet_cacheInvalidate (c : Cache) (id : Nat) (k : CacheKey)
    (h : k.file_id = id) : cacheGet (cacheInvalidate c id) k = none := by
  induction c with
  | nil => simp [cacheGet, cacheInvalidate]
  | cons e rest ih =>
    obtain ⟨ke, be⟩ := e
    by_cases hk : ke.file_id = id
    · simpa [cacheGet, cacheInvalidate, hk] using ih
    · have hne : ke ≠ k := by
        intro hkk
        exact hk (hkk ▸ h)
      simpa [cacheGet, cacheInvalidate, hk, hne] using ih

/-! ### Claim theorems -/

/-- C5: for every (resource, preset, format) key for which a cache entry
exists at the time of the request, `get_file` returns exactly that entry's
payload as the Found outcome (rendered binary or base64 according to the
encode flag), leaves the cache unchanged, and does not invoke the origin
gateway. -/
theorem C5_cache_hit_equivalence (b64encode : Bytes → String)
    (gw : Nat → String → ImageFormat → Option Bytes)
    (cache : Cache) (file_id : Nat) (params : ImageGet) (config : Config)
    (b : Bytes)
    (h : cacheGet cache ⟨file_id, resolvePreset params.preset config,
          params.format.getD config.default_serving_format⟩ = some b) :
    get_file b64encode gw cache file_id params config =
      ((if params.encode.getD false then Response.okJsonImage (b64encode b)
        else Response.okImage (params.format.getD config.default_serving_format) b),
       cache, false) := by
  simp only [get_file]
  rw [h]

/-- Witness for C5 at a concrete cached entry. -/
theorem C5_cache_hit_equivalence_witness :
    get_file (fun _ => "") (fun _ _ _ => none)
      [(⟨1, "thumb", ImageFormat.png⟩, [7, 7])] 1
      ⟨none, some "thumb", none⟩ ⟨ImageFormat.png, "thumb", ["thumb"]⟩ =
      (Response.okImage ImageFormat.png [7, 7],
       [(⟨1, "thumb", ImageFormat.png⟩, [7, 7])], false) := by
  have h := C5_cache_hit_equivalence (fun _ => "") (fun _ _ _ => none)
      [(⟨1, "thumb", ImageFormat.png⟩, [7, 7])] 1
      ⟨none, some "thumb", none⟩ ⟨ImageFormat.png, "thumb", ["thumb"]⟩ [7, 7]
      (by decide)
  simpa using h

/-- C6: on a cache miss for a key, if the origin gateway returns bytes then
exactly those bytes are stored in the cache under that key and the Found
outcome carries them; a second identical fetch then answers from the cache
with the same payload, without a second gateway call. -/
theorem C6_cache_population (b64encode : Bytes → String)
    (gw : Nat → String → ImageFormat → Option Bytes)
    (cache : Cache) (file_id : Nat) (params : ImageGet) (config : Config)
    (data : Bytes)
    (hmiss : cacheGet cache ⟨file_id, resolvePreset params.preset config,
          params.format.getD config.default_serving_format⟩ = none)
    (hgw : gw file_id (resolvePreset params.preset config)
          (params.format.getD config.default_serving_format) = some data) :
    get_file b64encode gw cache file_id params config =
      ((if params.encode.getD false then Response.okJsonImage (b64encode data)
        else Response.okImage (params.format.getD config.default_serving_format) data),
       cacheSet cache ⟨file_id, resolvePreset params.preset config,
          params.format.getD config.default_serving_format⟩ data, true) ∧
    get_file b64encode gw
      (cacheSet cache ⟨file_id, resolvePreset params.preset config,
          params.format.getD config.default_serving_format⟩ data)
      file_id params config =
      ((if params.encode.getD false then Response.okJsonImage (b64encode data)
        else Response.okImage (params.format.getD config.default_serving_format) data),
       cacheSet cache ⟨file_id, resolvePreset params.preset config,
          params.format.getD config.default_serving_format⟩ data, false) := by
  constructor
  · simp only [get_file]
    rw [hmiss, hgw]
  · simp only [get_file]
    rw [cacheGet_cacheSet_self]

/-- Witness for C6 at a concrete miss followed by a gateway hit. -/
theorem C6_cache_population_witness :
    get_file (fun _ => "") (fun _ _ _ => some [5])
      [] 2 ⟨some ImageFormat.jpeg, none, none⟩
      ⟨ImageFormat.png, "original", []⟩ =
      (Response.okImage ImageFormat.jpeg [5],
       [(⟨2, "original", ImageFormat.jpeg⟩, [5])], true) ∧
    get_file (fun _ => "") (fun _ _ _ => some [5])
      [(⟨2, "original", ImageFormat.jpeg⟩, [5])] 2
      ⟨some ImageFormat.jpeg, none, none⟩
      ⟨ImageFormat.png, "original", []⟩ =
      (Response.okImage ImageFormat.jpeg [5],
       [(⟨2, "original", ImageFormat.jpeg⟩, [5])], false) := by
  have h := C6_cache_population (fun _ => "") (fun _ _ _ => some [5])
      [] 2 ⟨some ImageFormat.jpeg, none, none⟩
      ⟨ImageFormat.png, "original", []⟩ [5] (by decide) (by decide)
  simpa [cacheSet] using h

/-- C7: on a cache miss, if the origin reports absence then the outcome is
NotFound and the cache is unchanged (no negative caching); running the fetch
again on the resulting cache invokes the gateway again (third component
`true`) and returns not-found again. -/
theorem C7_no_negative_caching (b64encode : Bytes → String)
    (gw : Nat → String → ImageFormat → Option Bytes)
    (cache : Cache) (file_id : Nat) (params : ImageGet) (config : Config)
    (hmiss : cacheGet cache ⟨file_id, resolvePreset params.preset config,
          params.format.getD config.default_serving_format⟩ = none)
    (hgw : gw file_id (resolvePreset params.preset config)
          (params.format.getD config.default_serving_format) = none) :
    get_file b64encode gw cache file_id params config =
      (Response.notFound, cache, true) ∧
    get_file b64encode gw
      (get_file b64encode gw cache file_id params config).2.1
      file_id params config = (Response.notFound, cache, true) := by
  have h1 : get_file b64encode gw cache file_id params config =
      (Response.notFound, cache, true) := by
    simp only [get_file]
    rw [hmiss, hgw]
  exact ⟨h1, by rw [h1]; exact h1⟩

/-- Witness for C7 at a concrete absent resource. -/
theorem C7_no_negative_caching_witness :
    get_file (fun _ => "") (fun _ _ _ => none) [] 3
      ⟨none, none, none⟩ ⟨ImageFormat.png, "original", []⟩ =
      (Response.notFound, [], true) ∧
    get_file (fun _ => "") (fun _ _ _ => none)
      (get_file (fun _ => "") (fun _ _ _ => none) [] 3
        ⟨none, none, none⟩ ⟨ImageFormat.png, "original", []⟩).2.1 3
      ⟨none, none, none⟩ ⟨ImageFormat.png, "original", []⟩ =
      (Response.notFound, [], true) :=
  C7_no_negative_caching (fun _ => "") (fun _ _ _ => none) [] 3
      ⟨none, none, none⟩ ⟨ImageFormat.png, "original", []⟩
      (by decide) (by decide)

/-- C1: after a delete whose gateway call succeeds, the orchestrator has
purged every cached rendition of the identifier: the response is the success
acknowledgment, no (preset, format) combination for that identifier remains
retrievable from the cache, and any subsequent fetch of that identifier
invokes the gateway (it cannot be served from stale cache). -/
theorem C1_delete_invalidation (gw_delete : Nat → Except String Unit)
    (cache : Cache) (file_id : Nat)
    (h : gw_delete file_id = Except.ok ()) :
    (remove_file gw_delete cache file_id).1 = Response.okDeleted file_id ∧
    (∀ p f, cacheGet (remove_file gw_delete cache file_id).2 ⟨file_id, p, f⟩ = none) ∧
    (∀ b64encode gw params config,
      (get_file b64encode gw (remove_file gw_delete cache file_id).2
        file_id params config).2.2 = true) := by
  have hrm : remove_file gw_delete cache file_id =
      (Response.okDeleted file_id, cacheInvalidate cache file_id) := by
    simp only [remove_file, delete_image]
    rw [h]
  refine ⟨by rw [hrm], ?_, ?_⟩
  · intro p f
    rw [hrm]
    exact cacheGet_cacheInvalidate cache file_id ⟨file_id, p, f⟩ rfl
  · intro b64encode gw params config
    rw [hrm]
    simp only [get_file]
    rw [cacheGet_cacheInvalidate cache file_id
      ⟨file_id, resolvePreset params.preset config,
        params.format.getD config.default_serving_format⟩ rfl]
    rcases gw file_id (resolvePreset params.preset config)
        (params.format.getD config.default_serving_format) with _ | d <;> rfl

/-- Witness for C1: four renditions of resource 1 are cached (presets
original/thumb, formats png/jpeg); a successful delete purges them and a
subsequent fetch goes to the gateway. -/
theorem C1_delete_invalidation_witness :
    (remove_file (fun _ => Except.ok ())
      [(⟨1, "original", ImageFormat.png⟩, [1]),
       (⟨1, "original", ImageFormat.jpeg⟩, [2]),
       (⟨1, "thumb", ImageFormat.png⟩, [3]),
       (⟨1, "thumb", ImageFormat.jpeg⟩, [4])] 1).1 = Response.okDeleted 1 ∧
    cacheGet (remove_file (fun _ => Except.ok ())
      [(⟨1, "original", ImageFormat.png⟩, [1]),
       (⟨1, "original", ImageFormat.jpeg⟩, [2]),
       (⟨1, "thumb", ImageFormat.png⟩, [3]),
       (⟨1, "thumb", ImageFormat.jpeg⟩, [4])] 1).2
      ⟨1, "thumb", ImageFormat.png⟩ = none ∧
    (get_file (fun _ => "") (fun _ _ _ => some [3])
      (remove_file (fun _ => Except.ok ())
        [(⟨1, "original", ImageFormat.png⟩, [1]),
         (⟨1, "original", ImageFormat.jpeg⟩, [2]),
         (⟨1, "thumb", ImageFormat.png⟩, [3]),
         (⟨1, "thumb", ImageFormat.jpeg⟩, [4])] 1).2 1
      ⟨some ImageFormat.png, some "thumb", none⟩
      ⟨ImageFormat.png, "original", ["thumb"]⟩).2.2 = true := by
  have h := C1_delete_invalidation (fun _ => Except.ok ())
      [(⟨1, "original", ImageFormat.png⟩, [1]),
       (⟨1, "original", ImageFormat.jpeg⟩, [2]),
       (⟨1, "thumb", ImageFormat.png⟩, [3]),
       (⟨1, "thumb", ImageFormat.jpeg⟩, [4])] 1 rfl
  exact ⟨h.1, h.2.1 "thumb" ImageFormat.png,
    h.2.2 (fun _ => "") (fun _ _ _ => some [3])
      ⟨some ImageFormat.png, some "thumb", none⟩
      ⟨ImageFormat.png, "original", ["thumb"]⟩⟩

/-- C2 counterexample: `get_image` is typed `Option` at its call site, so an
internal gateway error can only surface as `none` (`lowerOutcome`); on a cache
miss the handler then answers 404 Not Found — not a server-side Error distinct
from NotFound, contradicting the claim. -/
theorem C2_counterexample :
    (get_file (fun _ => "") (fun _ _ _ => lowerOutcome GatewayOutcome.error)
      [] 1 ⟨none, none, none⟩ ⟨ImageFormat.png, "original", []⟩).1 =
      Response.notFound ∧
    Response.notFound.status = 404 ∧ Response.notFound.status ≠ 500 := by
  decide

/-- C2 (amended): on a cache miss, when `get_image` yields no bytes — whether
the rendition is absent or the origin failed internally, which the
`Option`-typed interface cannot distinguish — the outcome is the 404 NotFound
response and the cache is left unchanged. -/
theorem C2_gateway_failure_amended (b64encode : Bytes → String)
    (gw : Nat → String → ImageFormat → Option Bytes)
    (cache : Cache) (file_id : Nat) (params : ImageGet) (config : Config)
    (hmiss : cacheGet cache ⟨file_id, resolvePreset params.preset config,
          params.format.getD config.default_serving_format⟩ = none)
    (hgw : gw file_id (resolvePreset params.preset config)
          (params.format.getD config.default_serving_format) = none) :
    (get_file b64encode gw cache file_id params config).1 = Response.notFound ∧
    (get_file b64encode gw cache file_id params config).2.1 = cache ∧
    ((get_file b64encode gw cache file_id params config).1).status = 404 := by
  have h1 : get_file b64encode gw cache file_id params config =
      (Response.notFound, cache, true) := by
    simp only [get_file]
    rw [hmiss, hgw]
  rw [h1]
  exact ⟨rfl, rfl, rfl⟩

/-- Witness for the amended C2 at a concrete erroring gateway. -/
theorem C2_gateway_failure_amended_witness :
    (get_file (fun _ => "") (fun _ _ _ => lowerOutcome GatewayOutcome.error)
      [] 2 ⟨none, none, none⟩ ⟨ImageFormat.jpeg, "original", []⟩).1 =
      Response.notFound ∧
    (get_file (fun _ => "") (fun _ _ _ => lowerOutcome GatewayOutcome.error)
      [] 2 ⟨none, none, none⟩ ⟨ImageFormat.jpeg, "original", []⟩).2.1 = [] ∧
    ((get_file (fun _ => "") (fun _ _ _ => lowerOutcome GatewayOutcome.error)
      [] 2 ⟨none, none, none⟩ ⟨ImageFormat.jpeg, "original", []⟩).1).status = 404 :=
  C2_gateway_failure_amended (fun _ => "")
    (fun _ _ _ => lowerOutcome GatewayOutcome.error) [] 2
    ⟨none, none, none⟩ ⟨ImageFormat.jpeg, "original", []⟩
    (by decide) (by decide)

/-- C4 counterexample: when the requested preset is absent the default is NOT
used unchanged — `get_file` normalizes the defaulted value too.  With default
preset "bogus" and table {"thumb"}, an absent request resolves to "original",
not to the default "bogus". -/
theorem C4_counterexample :
    resolvePreset none ⟨ImageFormat.png, "bogus", ["thumb"]⟩ = "original" ∧
    ("original" : String) ≠ "bogus" := by
  decide

/-- C4 (amended): if the requested preset is absent, the default preset is
substituted and then subject to the same normalization (kept iff it is
"original" or a table key, else replaced by "original"); "original" is kept;
a present preset that is a table key is kept; a present preset that is
neither "original" nor a table key becomes "original" without error.  The
resolved preset is always "original" or a table key, and `get_file` touches
the cache at no key other than the one built from the resolved preset. -/
theorem C4_preset_resolution_amended (params : ImageGet) (config : Config) :
    (params.preset = some "original" →
      resolvePreset params.preset config = "original") ∧
    (∀ p, params.preset = some p → p ≠ "original" → p ∉ config.size_presets →
      resolvePreset params.preset config = "original") ∧
    (∀ p, params.preset = some p → p ∈ config.size_presets →
      resolvePreset params.preset config = p) ∧
    (params.preset = none →
      resolvePreset params.preset config =
        (if config.default_serving_preset = "original" ∨
            config.default_serving_preset ∈ config.size_presets
         then config.default_serving_preset else "original")) ∧
    (resolvePreset params.preset config = "original" ∨
      resolvePreset params.preset config ∈ config.size_presets) ∧
    (∀ b64encode gw cache file_id k,
      k ≠ ⟨file_id, resolvePreset params.preset config,
            params.format.getD config.default_serving_format⟩ →
      cacheGet (get_file b64encode gw cache file_id params config).2.1 k =
        cacheGet cache k) := by
  refine ⟨?_, ?_, ?_, ?_, ?_, ?_⟩
  · intro h
    simp [resolvePreset, h]
  · intro p hp hne hnotin
    simp [resolvePreset, hp, hne, hnotin]
  · intro p hp hin
    by_cases hpo : p = "original" <;>
      simp [resolvePreset, hp, hin, hpo]
  · intro h
    by_cases ho : config.default_serving_preset = "original"
    · simp [resolvePreset, h, ho]
    · by_cases hm : config.default_serving_preset ∈ config.size_presets <;>
        simp [resolvePreset, h, ho, hm]
  · rcases hp : params.preset with _ | p
    · by_cases ho : config.default_serving_preset = "original"
      · left
        simp [resolvePreset, hp, ho]
      · by_cases hm : config.default_serving_preset ∈ config.size_presets
        · right
          simp [resolvePreset, hp, ho, hm]
        · left
          simp [resolvePreset, hp, ho, hm]
    · by_cases hpo : p = "original"
      · left
        simp [resolvePreset, hp, hpo]
      · by_cases hm : p ∈ config.size_presets
        · right
          simp [resolvePreset, hp, hpo, hm]
        · left
          simp [resolvePreset, hp, hpo, hm]
  · intro b64encode gw cache file_id k hk
    simp only [get_file]
    rcases hc : cacheGet cache ⟨file_id, resolvePreset params.preset config,
        params.format.getD config.default_serving_format⟩ with _ | cached
    · rcases hg : gw file_id (resolvePreset params.preset config)
          (params.format.getD config.default_serving_format) with _ | data
      · rfl
      · exact cacheGet_cacheSet_ne cache
          ⟨file_id, resolvePreset params.preset config,
            params.format.getD config.default_serving_format⟩ k data hk
    · rfl

/-- Witness for the amended C4: the unknown preset "nonexistent-xyz" resolves
to "original" and a fetch under it leaves every other cache key untouched. -/
theorem C4_preset_resolution_amended_witness :
    resolvePreset (some "nonexistent-xyz")
      ⟨ImageFormat.png, "original", ["thumb"]⟩ = "original" ∧
    cacheGet (get_file (fun _ => "") (fun _ _ _ => none) [] 9
        ⟨none, some "nonexistent-xyz", none⟩
        ⟨ImageFormat.png, "original", ["thumb"]⟩).2.1
      ⟨8, "nonexistent-xyz", ImageFormat.png⟩ =
      cacheGet [] ⟨8, "nonexistent-xyz", ImageFormat.png⟩ := by
  have h := C4_preset_resolution_amended
    ⟨none, some "nonexistent-xyz", none⟩
    ⟨ImageFormat.png, "original", ["thumb"]⟩
  exact ⟨h.2.1 "nonexistent-xyz" rfl (by decide) (by decide),
    h.2.2.2.2.2 (fun _ => "") (fun _ _ _ => none) [] 9
      ⟨8, "nonexistent-xyz", ImageFormat.png⟩ (by decide)⟩

/-- C3 counterexample: `add_file` deserializes the JSON envelope BEFORE
base64-decoding the payload, the reverse of the claimed order.  On a body that
parses to an envelope whose data is not valid base64, the performed step trace
is [readBody, deserialize, decode]: deserialize (index 1) strictly precedes
decode (index 2). -/
theorem C3_counterexample :
    (add_file (fun _ => Except.ok ⟨ImageFormat.png, "xx"⟩) (fun _ => none)
      (fun _ _ => Except.error "") (Except.ok [1]) []).2.2 =
      [Step.readBody, Step.deserialize, Step.decode] ∧
    [Step.readBody, Step.deserialize, Step.decode].indexOf Step.deserialize <
      [Step.readBody, Step.deserialize, Step.decode].indexOf Step.decode := by
  decide

/-- C3 (amended): the ingest flow first deserializes/validates the request
envelope and only then base64-decodes the data field; each failure is a
terminal client-input error (422) with no gateway call and no cache mutation,
and in every run in which the decode step occurs, the deserialize step
occurred before it. -/
theorem C3_ingest_order_amended (parseUpload : Bytes → Except String ImageUpload)
    (b64decode : String → Option Bytes)
    (process_new_image : ImageFormat → Bytes → Except String (Nat × List ImageFormat))
    (bodyResult : Except String Bytes) (cache : Cache) :
    (∀ bod e, bodyResult = Except.ok bod → parseUpload bod = Except.error e →
      add_file parseUpload b64decode process_new_image bodyResult cache =
        (Response.errDeserialize, cache, [Step.readBody, Step.deserialize])) ∧
    (∀ bod upload, bodyResult = Except.ok bod → parseUpload bod = Except.ok upload →
      b64decode upload.data = none →
      add_file parseUpload b64decode process_new_image bodyResult cache =
        (Response.errBase64, cache, [Step.readBody, Step.deserialize, Step.decode])) ∧
    Response.errDeserialize.status = 422 ∧
    Response.errBase64.status = 422 ∧
    (Step.decode ∈ (add_file parseUpload b64decode process_new_image bodyResult cache).2.2 →
      (add_file parseUpload b64decode process_new_image bodyResult cache).2.2.indexOf
          Step.deserialize <
        (add_file parseUpload b64decode process_new_image bodyResult cache).2.2.indexOf
          Step.decode) := by
  refine ⟨?_, ?_, rfl, rfl, ?_⟩
  · intro bod e hb hp
    subst hb
    simp [add_file, hp]
  · intro bod upload hb hp hd
    subst hb
    simp [add_file, hp, hd]
  · rcases bodyResult with e | bod
    · have ht : (add_file parseUpload b64decode process_new_image
          (Except.error e) cache).2.2 = [Step.readBody] := rfl
      rw [ht]
      intro h
      exact absurd h (by decide)
    · rcases hp : parseUpload bod with e | upload
      · have ht : (add_file parseUpload b64decode process_new_image
            (Except.ok bod) cache).2.2 =
            [Step.readBody, Step.deserialize] := by
          simp [add_file, hp]
        rw [ht]
        intro h
        exact absurd h (by decide)
      · rcases hd : b64decode upload.data with _ | data
        · have ht : (add_file parseUpload b64decode process_new_image
              (Except.ok bod) cache).2.2 =
              [Step.readBody, Step.deserialize, Step.decode] := by
            simp [add_file, hp, hd]
          rw [ht]
          intro _
          decide
        · rcases hproc : process_new_image upload.format data with e | v
          · have ht : (add_file parseUpload b64decode process_new_image
                (Except.ok bod) cache).2.2 =
                [Step.readBody, Step.deserialize, Step.decode, Step.gateway] := by
              simp [add_file, hp, hd, hproc]
            rw [ht]
            intro _
            decide
          · obtain ⟨i, fs⟩ := v
            have ht : (add_file parseUpload b64decode process_new_image
                (Except.ok bod) cache).2.2 =
                [Step.readBody, Step.deserialize, Step.decode, Step.gateway] := by
              simp [add_file, hp, hd, hproc]
            rw [ht]
            intro _
            decide

/-- Witness for the amended C3 at a concrete run: envelope parses, base64
decode fails, outcome 422 with trace ending at the decode step. -/
theorem C3_ingest_order_amended_witness :
    add_file (fun _ => Except.ok ⟨ImageFormat.png, "yy"⟩) (fun _ => none)
      (fun _ _ => Except.error "") (Except.ok [2]) [] =
      (Response.errBase64, [], [Step.readBody, Step.deserialize, Step.decode]) ∧
    [Step.readBody, Step.deserialize, Step.decode].indexOf Step.deserialize <
      [Step.readBody, Step.deserialize, Step.decode].indexOf Step.decode := by
  have h := C3_ingest_order_amended (fun _ => Except.ok ⟨ImageFormat.png, "yy"⟩)
    (fun _ => none) (fun _ _ => Except.error "") (Except.ok [2]) []
  refine ⟨h.2.1 [2] ⟨ImageFormat.png, "yy"⟩ rfl rfl rfl, ?_⟩
  have h5 := h.2.2.2.2
  rw [h.2.1 [2] ⟨ImageFormat.png, "yy"⟩ rfl rfl rfl] at h5
  exact h5 (by decide)

/-- C9: an upload whose envelope parses but whose data field is not valid
base64 is rejected with the 422 client-input error (not a server error); no
gateway step occurs and the cache is unchanged. -/
theorem C9_malformed_upload (parseUpload : Bytes → Except String ImageUpload)
    (b64decode : String → Option Bytes)
    (process_new_image : ImageFormat → Bytes → Except String (Nat × List ImageFormat))
    (cache : Cache) (bod : Bytes) (upload : ImageUpload)
    (hparse : parseUpload bod = Except.ok upload)
    (hdecode : b64decode upload.data = none) :
    add_file parseUpload b64decode process_new_image (Except.ok bod) cache =
      (Response.errBase64, cache, [Step.readBody, Step.deserialize, Step.decode]) ∧
    Response.errBase64.status = 422 ∧ Response.errBase64.status ≠ 500 ∧
    Step.gateway ∉ [Step.readBody, Step.deserialize, Step.decode] := by
  refine ⟨?_, rfl, by decide, by decide⟩
  simp [add_file, hparse, hdecode]

/-- Witness for C9 at a concrete malformed payload. -/
theorem C9_malformed_upload_witness :
    add_file (fun _ => Except.ok ⟨ImageFormat.gif, "!!"⟩) (fun _ => none)
      (fun _ _ => Except.error "") (Except.ok [3]) [] =
      (Response.errBase64, [], [Step.readBody, Step.deserialize, Step.decode]) ∧
    Response.errBase64.status = 422 ∧ Response.errBase64.status ≠ 500 ∧
    Step.gateway ∉ [Step.readBody, Step.deserialize, Step.decode] :=
  C9_malformed_upload (fun _ => Except.ok ⟨ImageFormat.gif, "!!"⟩) (fun _ => none)
    (fun _ _ => Except.error "") [] [3] ⟨ImageFormat.gif, "!!"⟩ rfl rfl

/-- C10: a failure to read the request body terminates `add_file` with the
500 internal-server-error response (not the 422 client-input error); no
deserialize, decode or gateway step occurs and the cache is unchanged. -/
theorem C10_body_read_failure (parseUpload : Bytes → Except String ImageUpload)
    (b64decode : String → Option Bytes)
    (process_new_image : ImageFormat → Bytes → Except String (Nat × List ImageFormat))
    (cache : Cache) (e : String) :
    add_file parseUpload b64decode process_new_image (Except.error e) cache =
      (Response.errBodyRead, cache, [Step.readBody]) ∧
    Response.errBodyRead.status = 500 ∧ Response.errBodyRead.status ≠ 422 ∧
    Step.gateway ∉ [Step.readBody] ∧ Step.deserialize ∉ [Step.readBody] ∧
    Step.decode ∉ [Step.readBody] :=
  ⟨rfl, rfl, by decide, by decide, by decide, by decide⟩

/-- C8: the transport-encoding flag has no effect on cache state or on the
gateway interaction (the non-response components of `get_file` coincide for
any two flag values); when the plain run answers Found with payload d, the
flagged run answers the base64 encoding of exactly d while the cache holds
the canonical binary d under the resolved key; a NotFound decision is
likewise unchanged by the flag. -/
theorem C8_encode_flag_isolation (b64encode : Bytes → String)
    (gw : Nat → String → ImageFormat → Option Bytes)
    (cache : Cache) (file_id : Nat) (pformat : Option ImageFormat)
    (ppreset : Option String) (e1 e2 : Option Bool) (config : Config) :
    (get_file b64encode gw cache file_id ⟨pformat, ppreset, e1⟩ config).2 =
      (get_file b64encode gw cache file_id ⟨pformat, ppreset, e2⟩ config).2 ∧
    (∀ f d,
      (get_file b64encode gw cache file_id ⟨pformat, ppreset, some false⟩ config).1 =
        Response.okImage f d →
      (get_file b64encode gw cache file_id ⟨pformat, ppreset, some true⟩ config).1 =
        Response.okJsonImage (b64encode d) ∧
      cacheGet (get_file b64encode gw cache file_id
            ⟨pformat, ppreset, some true⟩ config).2.1
          ⟨file_id, resolvePreset ppreset config,
            pformat.getD config.default_serving_format⟩ = some d) ∧
    ((get_file b64encode gw cache file_id ⟨pformat, ppreset, some false⟩ config).1 =
        Response.notFound →
      (get_file b64encode gw cache file_id ⟨pformat, ppreset, some true⟩ config).1 =
        Response.notFound) := by
  simp only [get_file]
  rcases hc : cacheGet cache ⟨file_id, resolvePreset ppreset config,
      pformat.getD config.default_serving_format⟩ with _ | cached
  · rcases hg : gw file_id (resolvePreset ppreset config)
        (pformat.getD config.default_serving_format) with _ | data
    · refine ⟨rfl, ?_, ?_⟩
      · intro f d h
        simp at h
      · intro _
        rfl
    · refine ⟨rfl, ?_, ?_⟩
      · intro f d h
        simp only [Option.getD, if_neg, Bool.false_eq_true, if_false] at h
        obtain ⟨hf, hd⟩ := Response.okImage.inj h
        subst hd
        exact ⟨rfl, cacheGet_cacheSet_self cache _ data⟩
      · intro h
        simp at h
  · refine ⟨rfl, ?_, ?_⟩
    · intro f d h
      simp only [Option.getD, if_neg, Bool.false_eq_true, if_false] at h
      obtain ⟨hf, hd⟩ := Response.okImage.inj h
      subst hd
      exact ⟨rfl, hc⟩
    · intro h
      simp at h

/-- Witness for C8: a fetch missing the cache with the flag set stores the
canonical bytes [3] and answers their encoding; the non-response components
match those of the unflagged run. -/
theorem C8_encode_flag_isolation_witness :
    (get_file (fun _ => "enc") (fun _ _ _ => some [3]) [] 4
      ⟨none, none, some true⟩ ⟨ImageFormat.png, "original", []⟩).2 =
      (get_file (fun _ => "enc") (fun _ _ _ => some [3]) [] 4
        ⟨none, none, some false⟩ ⟨ImageFormat.png, "original", []⟩).2 ∧
    (get_file (fun _ => "enc") (fun _ _ _ => some [3]) [] 4
      ⟨none, none, some true⟩ ⟨ImageFormat.png, "original", []⟩).1 =
      Response.okJsonImage "enc" ∧
    cacheGet (get_file (fun _ => "enc") (fun _ _ _ => some [3]) [] 4
        ⟨none, none, some true⟩ ⟨ImageFormat.png, "original", []⟩).2.1
      ⟨4, "original", ImageFormat.png⟩ = some [3] := by
  have h := C8_encode_flag_isolation (fun _ => "enc") (fun _ _ _ => some [3])
    [] 4 none none (some true) (some false) ⟨ImageFormat.png, "original", []⟩
  have h2 := h.2.1 ImageFormat.png [3] (by decide)
  exact ⟨h.1, h2.1, h2.2⟩

end Lust
